import Mathlib

/-!
Shallow embedding of the Cura `MaterialManager` / `VariantManager` lookup
structures (files `cura/Machines/MaterialManager.py` and
`cura/Machines/VariantManager.py`).

Python dictionaries are modelled as insertion-ordered association lists
(`List (String × α)`): `dictGet` is `d.get(k)` / `d[k]`, `dictInsert` is
`d[k] = v` (update in place if the key is present, append otherwise).
Python exceptions (`KeyError`, `TypeError`, `RuntimeError`) are modelled by
the `PyError` type and `Except`.  In-place mutation of nodes reached through
the index is modelled by writing the updated node back along its access path
and returning the updated map; functions that may perform a lazy
materialization also return the number of `findInstanceContainers` calls
they made on the registry.
-/

namespace Cura

/-- A heavyweight backing object (`InstanceContainer`); only its identity
matters to this core, so it is a wrapper around its id. -/
structure InstanceContainer where
  id : String
deriving Repr, DecidableEq

/-- The one external collaborator: the container registry, reduced to the
single operation the lazy-materialization path uses. -/
structure ContainerRegistry where
  findInstanceContainers : String → List InstanceContainer

/-- Python exceptions raised by the embedded code. -/
inductive PyError where
  | keyError (key : String)
  | typeError
  | runtimeError (msg : String)
deriving Repr, DecidableEq

/-- `d.get(k)`: first binding of key `k` in the dict, if any. -/
def dictGet {α : Type} (k : String) (l : List (String × α)) : Option α :=
  (l.find? (fun p => p.1 == k)).map Prod.snd

/-- `d[k] = v`: replace the binding of `k` in place if present, else append. -/
def dictInsert {α : Type} (k : String) (v : α) : List (String × α) → List (String × α)
  | [] => [(k, v)]
  | (k', v') :: rest => if k' == k then (k, v) :: rest else (k', v') :: dictInsert k v rest

/-! ## MaterialManager (cura/Machines/MaterialManager.py) -/

/-- The fields of a material metadata record that `MaterialManager` reads:
`id`, `GUID`, `definition` and `approximate_diameter` are accessed with
mandatory `[...]` lookups; `base_file` and `variant_name` with `.get(...)`,
so they are optional. -/
structure MaterialMetadata where
  id : String
  GUID : String
  base_file : Option String
  definition : String
  approximate_diameter : String
  variant_name : Option String
deriving Repr, DecidableEq

/-- `MaterialNode`: metadata, a lazily-filled container slot, the primary
child map (`material_map`, root-material-id → node) and the secondary child
map (`children_map`, variant name → node). -/
inductive MaterialNode where
  | mk (metadata : Option MaterialMetadata) (container : Option InstanceContainer)
       (material_map : List (String × MaterialNode))
       (children_map : List (String × MaterialNode))

def MaterialNode.metadata : MaterialNode → Option MaterialMetadata
  | .mk m _ _ _ => m

def MaterialNode.container : MaterialNode → Option InstanceContainer
  | .mk _ c _ _ => c

def MaterialNode.material_map : MaterialNode → List (String × MaterialNode)
  | .mk _ _ mm _ => mm

def MaterialNode.children_map : MaterialNode → List (String × MaterialNode)
  | .mk _ _ _ cm => cm

/-- Mutation `node.container = c`. -/
def MaterialNode.setContainer : MaterialNode → Option InstanceContainer → MaterialNode
  | .mk m _ mm cm, c => .mk m c mm cm

/-- Mutation of `node.material_map`. -/
def MaterialNode.setMaterialMap : MaterialNode → List (String × MaterialNode) → MaterialNode
  | .mk m c _ cm, mm => .mk m c mm cm

/-- Mutation of `node.children_map`. -/
def MaterialNode.setChildrenMap : MaterialNode → List (String × MaterialNode) → MaterialNode
  | .mk m c mm _, cm => .mk m c mm cm

/-- `MaterialNode()` — a fresh structural node. -/
def emptyNode : MaterialNode := .mk none none [] []

/-- `MaterialNode(material_metadata)` — a fresh leaf node carrying a record. -/
def leafNode (md : MaterialMetadata) : MaterialNode := .mk (some md) none [] []

/-- The guid map and the diameter → machine → `MaterialNode` map of a
`MaterialManager` (`_guid_to_root_materials_map` and
`_diameter_machine_variant_material_map`). -/
structure MaterialManager where
  guid_to_root_materials_map : List (String × MaterialNode)
  diameter_machine_variant_material_map :
    List (String × List (String × MaterialNode))

/-- `self._default_machine_definition_id`. -/
def default_machine_definition_id : String := "fdmprinter"

/-- Python truthiness of an optional string (`if not variant_name`):
`None` and `""` are falsy. -/
def truthy : Option String → Bool
  | none => false
  | some s => !(s == "")

/-- Pass 1 of `MaterialManager.initialize`, one record: skip the
`empty_material` sentinel; if the record's `id` equals its `base_file` it is
a root material and is inserted into the GUID map unless its GUID is
already present (first writer wins). -/
def guidStep (m : List (String × MaterialNode)) (r : MaterialMetadata) :
    List (String × MaterialNode) :=
  if r.id == "empty_material" then m
  else if r.base_file == some r.id then
    if (dictGet r.GUID m).isSome then m
    else dictInsert r.GUID (leafNode r) m
  else m

/-- Pass 1 of `MaterialManager.initialize` over the whole record list. -/
def buildGuidMap (records : List MaterialMetadata) : List (String × MaterialNode) :=
  records.foldl guidStep []

/-- Pass 2 of `MaterialManager.initialize`, one record: find the root
material id through the GUID map (`KeyError` if the GUID is absent,
`TypeError` if the root node has no metadata), get or create the diameter
bucket and the machine node, then insert the leaf: directly into the
machine node's `material_map` when the record has no (truthy) variant name
— a plain dict store, overwriting any previous binding — or into the
variant node's `material_map`, raising `RuntimeError` when that key is
already bound. -/
def pass2Step (guidMap : List (String × MaterialNode))
    (top : List (String × List (String × MaterialNode))) (r : MaterialMetadata) :
    Except PyError (List (String × List (String × MaterialNode))) :=
  if r.id == "empty_material" then .ok top
  else
    match dictGet r.GUID guidMap with
    | none => .error (.keyError r.GUID)
    | some rootNode =>
      match rootNode.metadata with
      | none => .error .typeError
      | some rootMd =>
        let root_material_id := rootMd.id
        let bucket :=
          match dictGet r.approximate_diameter top with
          | some b => b
          | none => []
        let machine_node :=
          match dictGet r.definition bucket with
          | some n => n
          | none => emptyNode
        if truthy r.variant_name then
          let variant_name := r.variant_name.getD ""
          let variant_node :=
            match dictGet variant_name machine_node.children_map with
            | some n => n
            | none => emptyNode
          if (dictGet root_material_id variant_node.material_map).isSome then
            .error (.runtimeError ("Found duplicate variant name [" ++ variant_name ++
              "] for machine [" ++ r.definition ++ "] in material [" ++ r.id ++ "]"))
          else
            let variant_node := variant_node.setMaterialMap
              (dictInsert root_material_id (leafNode r) variant_node.material_map)
            let machine_node := machine_node.setChildrenMap
              (dictInsert variant_name variant_node machine_node.children_map)
            .ok (dictInsert r.approximate_diameter
              (dictInsert r.definition machine_node bucket) top)
        else
          let machine_node := machine_node.setMaterialMap
            (dictInsert root_material_id (leafNode r) machine_node.material_map)
          .ok (dictInsert r.approximate_diameter
            (dictInsert r.definition machine_node bucket) top)

/-- `MaterialManager.initialize()`: pass 1 over the full record list, then
pass 2 over the full record list. -/
def mmInit (records : List MaterialMetadata) : Except PyError MaterialManager := do
  let guidMap := buildGuidMap records
  let top ← records.foldlM (pass2Step guidMap) []
  return ⟨guidMap, top⟩

/-- Python's built-in `round` to an integer: round half to even
(banker's rounding).  Diameters are modelled as exact rationals. -/
def pyRound (q : ℚ) : ℤ :=
  if 2 * (q.num % (q.den : ℤ)) < (q.den : ℤ) then q.num / (q.den : ℤ)
  else if (q.den : ℤ) < 2 * (q.num % (q.den : ℤ)) then q.num / (q.den : ℤ) + 1
  else if q.num / (q.den : ℤ) % 2 = 0 then q.num / (q.den : ℤ)
  else q.num / (q.den : ℤ) + 1

/-- `MaterialManager._getContainerOnNode`: return the cached container if
present; otherwise read the node's metadata id (`TypeError` on a node
without metadata), query the registry, raise `RuntimeError` on an empty
result, else cache and return the first container.  The second component is
the node after the call (the cache slot is filled only on success) and the
third counts the `findInstanceContainers` calls made. -/
def getContainerOnNode (reg : ContainerRegistry) (node : MaterialNode) :
    Except PyError InstanceContainer × MaterialNode × Nat :=
  match node.container with
  | some c => (.ok c, node, 0)
  | none =>
    match node.metadata with
    | none => (.error .typeError, node, 0)
    | some md =>
      match reg.findInstanceContainers md.id with
      | [] => (.error (.runtimeError ("Cannot lazy-load material container [" ++ md.id ++
                "], cannot be found in ContainerRegistry")), node, 1)
      | c :: _ => (.ok c, node.setContainer (some c), 1)

/-- Machine-node lookup with the default-machine fallback shared by
`getMaterial` and `getAvailableMaterials`: the node keyed by
`machine_definition_id`, else the node keyed by
`default_machine_definition_id`, else nothing; the key the node was found
under is returned with it (the mutation write-back path needs it). -/
def findMachineNode (bucket : List (String × MaterialNode))
    (machine_definition_id : String) : Option (String × MaterialNode) :=
  match dictGet machine_definition_id bucket with
  | some n => some (machine_definition_id, n)
  | none =>
    match dictGet default_machine_definition_id bucket with
    | some n => some (default_machine_definition_id, n)
    | none => none

/-- `MaterialManager.getMaterial`: resolve the diameter bucket by
`str(round(diameter))`, the machine node (with default fallback), the
variant node when a variant name is given, then try the variant node's
`material_map` and fall back to the machine node's `material_map`; a found
leaf is materialized through `_getContainerOnNode`.  Returns the optional
container, the manager after the call and the registry call count. -/
def getMaterial (reg : ContainerRegistry) (mm : MaterialManager)
    (machine_definition_id : String) (variant_name : Option String)
    (diameter : ℚ) (root_material_id : String) :
    Except PyError (Option InstanceContainer × MaterialManager × Nat) :=
  let rounded_diameter := toString (pyRound diameter)
  match dictGet rounded_diameter mm.diameter_machine_variant_material_map with
  | none => .ok (none, mm, 0)
  | some machine_variant_material_map =>
    match findMachineNode machine_variant_material_map machine_definition_id with
    | none => .ok (none, mm, 0)
    | some (machine_key, machine_node) =>
      let variant_node : Option (String × MaterialNode) :=
        match variant_name with
        | none => none
        | some vn =>
          match dictGet vn machine_node.children_map with
          | some v => some (vn, v)
          | none => none
      let fromMachine : Except PyError (Option InstanceContainer × MaterialManager × Nat) :=
        match dictGet root_material_id machine_node.material_map with
        | none => .ok (none, mm, 0)
        | some material_node =>
          match getContainerOnNode reg material_node with
          | (.error e, _, _) => .error e
          | (.ok c, node', n) =>
            let machine_node' := machine_node.setMaterialMap
              (dictInsert root_material_id node' machine_node.material_map)
            let mm' : MaterialManager :=
              ⟨mm.guid_to_root_materials_map,
                dictInsert rounded_diameter
                  (dictInsert machine_key machine_node' machine_variant_material_map)
                  mm.diameter_machine_variant_material_map⟩
            .ok (some c, mm', n)
      match variant_node with
      | none => fromMachine
      | some (vn, vnode) =>
        match dictGet root_material_id vnode.material_map with
        | none => fromMachine
        | some material_node =>
          match getContainerOnNode reg material_node with
          | (.error e, _, _) => .error e
          | (.ok c, node', n) =>
            let vnode' := vnode.setMaterialMap
              (dictInsert root_material_id node' vnode.material_map)
            let machine_node' := machine_node.setChildrenMap
              (dictInsert vn vnode' machine_node.children_map)
            let mm' : MaterialManager :=
              ⟨mm.guid_to_root_materials_map,
                dictInsert rounded_diameter
                  (dictInsert machine_key machine_node' machine_variant_material_map)
                  mm.diameter_machine_variant_material_map⟩
            .ok (some c, mm', n)

/-- `MaterialManager.getAvailableMaterials`: same bucket / machine / variant
resolution, then `material_id_metadata_dict = {}`; if a variant node was
found, the dict becomes its full `material_map` (root-material-id →
metadata); the machine-level branch is guarded by
`if material_id_metadata_dict is None`, faithfully kept here as an
`Option.isNone` test on a value initialized to `some []`. -/
def getAvailableMaterials (mm : MaterialManager) (machine_definition_id : String)
    (variant_name : Option String) (diameter : ℚ) :
    Option (List (String × Option MaterialMetadata)) :=
  let rounded_diameter := toString (pyRound diameter)
  match dictGet rounded_diameter mm.diameter_machine_variant_material_map with
  | none => some []
  | some machine_variant_material_map =>
    let machine_node := (findMachineNode machine_variant_material_map
      machine_definition_id).map Prod.snd
    let variant_node :=
      match variant_name, machine_node with
      | some vn, some mn => dictGet vn mn.children_map
      | _, _ => none
    let material_id_metadata_dict : Option (List (String × Option MaterialMetadata)) :=
      some []
    let material_id_metadata_dict :=
      match variant_node with
      | some vnode => some (vnode.material_map.map (fun p : String × MaterialNode => (p.1, p.2.metadata)))
      | none => material_id_metadata_dict
    if material_id_metadata_dict.isNone then
      match machine_node with
      | some mn => some (mn.material_map.map (fun p : String × MaterialNode => (p.1, p.2.metadata)))
      | none => material_id_metadata_dict
    else material_id_metadata_dict

/-- `MaterialManager.getMaterialByGUID`: direct GUID-map lookup, absent →
`None`; on a hit the node is materialized through `_getContainerOnNode`. -/
def getMaterialByGUID (reg : ContainerRegistry) (mm : MaterialManager) (guid : String) :
    Except PyError (Option InstanceContainer × MaterialManager × Nat) :=
  match dictGet guid mm.guid_to_root_materials_map with
  | none => .ok (none, mm, 0)
  | some node =>
    match getContainerOnNode reg node with
    | (.error e, _, _) => .error e
    | (.ok c, node', n) =>
      let mm' : MaterialManager :=
        ⟨dictInsert guid node' mm.guid_to_root_materials_map,
          mm.diameter_machine_variant_material_map⟩
      .ok (some c, mm', n)

/-! ## VariantManager (cura/Machines/VariantManager.py) -/

/-- The fields of a variant metadata record that `VariantManager` reads,
all with mandatory `[...]` lookups. -/
structure VariantMetadata where
  id : String
  name : String
  definition : String
  hardware_type : String
deriving Repr, DecidableEq

/-- One entry of the variant lookup table:
`{"metadata": ..., "container": None}`. -/
structure VariantEntry where
  metadata : VariantMetadata
  container : Option InstanceContainer
deriving Repr, DecidableEq

/-- `self._machine_to_variant_dict_map`: machine definition id → variant
name → entry. -/
def VariantMap : Type := List (String × List (String × VariantEntry))

/-- `self._exclude_variant_id_list`. -/
def exclude_variant_id_list : List String := ["empty_variant"]

/-- `VariantManager.initialize`, one record: skip excluded ids; get or
create the per-machine dict; `RuntimeError` when the variant name is
already bound for this machine, else store the entry with an empty
container slot.  The record's `hardware_type` is read but used only in the
duplicate error message. -/
def vmStep (m : VariantMap) (r : VariantMetadata) : Except PyError VariantMap :=
  if exclude_variant_id_list.contains r.id then .ok m
  else
    let variant_name := r.name
    let variant_definition := r.definition
    let variant_type := r.hardware_type
    let variant_dict :=
      match dictGet variant_definition m with
      | some d => d
      | none => []
    if (dictGet variant_name variant_dict).isSome then
      .error (.runtimeError ("Found duplicated variant name [" ++ variant_name ++
        "], type [" ++ variant_type ++ "] for machine [" ++ variant_definition ++ "]"))
    else
      .ok (dictInsert variant_definition
        (dictInsert variant_name ⟨r, none⟩ variant_dict) m)

/-- `VariantManager.initialize()` over the whole record list. -/
def vmInit (records : List VariantMetadata) : Except PyError VariantMap :=
  records.foldlM vmStep []

/-- `VariantManager.getVariantMetadata`: the first-level lookup is a plain
`[...]` access (so an unknown machine raises `KeyError`); the second-level
lookup uses `.get`, an absent (falsy) entry yields `None`.  The
`variant_type` argument is accepted and ignored. -/
def getVariantMetadata (m : VariantMap) (machine_type_name : String)
    (variant_name : String) (variant_type : Option String) :
    Except PyError (Option VariantMetadata) :=
  match dictGet machine_type_name m with
  | none => .error (.keyError machine_type_name)
  | some machine_dict =>
    match dictGet variant_name machine_dict with
    | none => .ok none
    | some variant_dict => .ok (some variant_dict.metadata)

/-- `VariantManager.getVariant`: same lookup as `getVariantMetadata`, then
lazy-load of the entry's container: on a cache miss query the registry,
`RuntimeError` on an empty result, else cache the first container (the
updated map is returned, with the registry call count). -/
def getVariant (reg : ContainerRegistry) (m : VariantMap) (machine_type_name : String)
    (variant_name : String) (variant_type : Option String) :
    Except PyError (Option InstanceContainer × VariantMap × Nat) :=
  match dictGet machine_type_name m with
  | none => .error (.keyError machine_type_name)
  | some machine_dict =>
    match dictGet variant_name machine_dict with
    | none => .ok (none, m, 0)
    | some variant_dict =>
      match variant_dict.container with
      | some c => .ok (some c, m, 0)
      | none =>
        match reg.findInstanceContainers variant_dict.metadata.id with
        | [] => .error (.runtimeError ("Cannot lazy-load variant container [" ++
            variant_dict.metadata.id ++ "], cannot be found in ContainerRegistry"))
        | c :: _ =>
          .ok (some c,
            dictInsert machine_type_name
              (dictInsert variant_name ⟨variant_dict.metadata, some c⟩ machine_dict) m, 1)

/-! ## Observation helpers and concrete fixtures -/

/-- Read the metadata of the machine-level leaf for
(diameter bucket, machine id, root material id) out of a
`_diameter_machine_variant_material_map`. -/
def machineLeafMeta (top : List (String × List (String × MaterialNode)))
    (diam mach rid : String) : Option (Option MaterialMetadata) :=
  match dictGet diam top with
  | none => none
  | some bucket =>
    match dictGet mach bucket with
    | none => none
    | some machine_node =>
      match dictGet rid machine_node.material_map with
      | none => none
      | some leaf => some leaf.metadata

/-- A root material record: `generic_pla` for `fdmprinter`, diameter
bucket `"3"`, no variant. -/
def rRootPLA : MaterialMetadata :=
  ⟨"generic_pla", "G1", some "generic_pla", "fdmprinter", "3", none⟩

/-- A second, physically distinct machine-level record with the same
(diameter, machine, root material) key as `rRootPLA`. -/
def rDupPLA : MaterialMetadata :=
  ⟨"generic_pla_dup", "G1", some "generic_pla", "fdmprinter", "3", none⟩

/-- A variant-specific record for `rRootPLA`'s root material on machine
`ultimaker3`, variant `AA 0.4`, diameter bucket `"3"`. -/
def rVarPLA : MaterialMetadata :=
  ⟨"generic_pla_um3_aa04", "G1", some "generic_pla", "ultimaker3", "3", some "AA 0.4"⟩

/-- A machine-level record for root material `generic_pla` on `ultimaker3`. -/
def rMachPLA : MaterialMetadata :=
  ⟨"generic_pla_um3", "G1", some "generic_pla", "ultimaker3", "3", none⟩

/-- A registry that can produce a container for every id. -/
def regAll : ContainerRegistry := ⟨fun i => [⟨i⟩]⟩

/-- A registry that can produce no container at all. -/
def regNone : ContainerRegistry := ⟨fun _ => []⟩

/-- A concrete built material manager: bucket `"3"`, machine `fdmprinter`
with machine-level leaf `generic_pla` and no variants. -/
def mmPLA : MaterialManager :=
  ⟨[("G1", leafNode rRootPLA)],
   [("3", [("fdmprinter", .mk none none [("generic_pla", leafNode rRootPLA)] [])])]⟩

/-- A concrete variant metadata record. -/
def vAA04 : VariantMetadata := ⟨"um3_aa04", "AA 0.4", "ultimaker3", "nozzle"⟩

/-- The predicate of pass 1: records that are inserted into the GUID map
when keyed by `g` — not the sentinel, a root material (`id == base_file`),
and carrying GUID `g`. -/
def isRootWithGuid (g : String) (r : MaterialMetadata) : Bool :=
  !(r.id == "empty_material") && r.base_file == some r.id && r.GUID == g

/-- A second root material record sharing `rRootPLA`'s GUID. -/
def rRootPLA2 : MaterialMetadata :=
  ⟨"generic_pla2", "G1", some "generic_pla2", "fdmprinter", "3", none⟩

/-- A variant-level leaf whose container is already materialized. -/
def leafV : MaterialNode := .mk (some rVarPLA) (some ⟨"variant_container"⟩) [] []

/-- A machine-level leaf whose container is already materialized, holding a
container distinct from `leafV`'s. -/
def leafM : MaterialNode := .mk (some rMachPLA) (some ⟨"machine_container"⟩) [] []

/-- A built index where machine `ultimaker3` (bucket `"3"`) holds BOTH a
machine-level leaf and a variant-level leaf for root material
`generic_pla`. -/
def mmBoth : MaterialManager :=
  ⟨[], [("3", [("ultimaker3", .mk none none [("generic_pla", leafM)]
      [("AA 0.4", .mk none none [("generic_pla", leafV)] [])])])]⟩

/-! ## Helper lemmas -/

theorem dictGet_nil {α : Type} (k : String) : dictGet k ([] : List (String × α)) = none := rfl

theorem dictGet_cons {α : Type} (k k' : String) (v : α) (l : List (String × α)) :
    dictGet k ((k', v) :: l) = if k' == k then some v else dictGet k l := by
  by_cases h : k' == k <;> simp [dictGet, List.find?, h]

theorem dictGet_insert_self {α : Type} (k : String) (v : α) (l : List (String × α)) :
    dictGet k (dictInsert k v l) = some v := by
  induction l with
  | nil => simp [dictInsert, dictGet_cons]
  | cons p rest ih =>
    obtain ⟨k', v'⟩ := p
    by_cases h : k' == k <;> simp [dictInsert, h, dictGet_cons, ih]

theorem dictGet_insert_ne {α : Type} {k k' : String} (v : α) (l : List (String × α))
    (h : k ≠ k') : dictGet k (dictInsert k' v l) = dictGet k l := by
  have hk : ¬ (k' == k) = true := by
    simp only [beq_iff_eq]
    exact fun hh => h hh.symm
  induction l with
  | nil => simp [dictInsert, dictGet_cons, hk, dictGet_nil]
  | cons p rest ih =>
    obtain ⟨k₀, v₀⟩ := p
    by_cases h₀ : k₀ == k'
    · have hk₀ : k₀ = k' := by simpa using h₀
      subst hk₀
      simp [dictInsert, dictGet_cons, hk]
    · simp [dictInsert, h₀, dictGet_cons, ih]

theorem dictInsert_get_self {α : Type} {k : String} {v : α} {l : List (String × α)}
    (h : dictGet k l = some v) : dictInsert k v l = l := by
  induction l with
  | nil => simp [dictGet] at h
  | cons p rest ih =>
    obtain ⟨k', v'⟩ := p
    by_cases h' : k' == k
    · have hk : k' = k := by simpa using h'
      subst hk
      rw [dictGet_cons] at h
      simp at h
      simp [dictInsert, h]
    · rw [dictGet_cons] at h
      simp [h'] at h
      simp [dictInsert, h', ih h]

theorem MaterialNode.setMaterialMap_self (n : MaterialNode) :
    n.setMaterialMap n.material_map = n := by
  cases n; rfl

theorem MaterialNode.setChildrenMap_self (n : MaterialNode) :
    n.setChildrenMap n.children_map = n := by
  cases n; rfl

theorem MaterialNode.container_setContainer (n : MaterialNode)
    (c : Option InstanceContainer) : (n.setContainer c).container = c := by
  cases n; rfl

theorem MaterialNode.metadata_setContainer (n : MaterialNode)
    (c : Option InstanceContainer) : (n.setContainer c).metadata = n.metadata := by
  cases n; rfl

theorem MaterialNode.material_map_setMaterialMap (n : MaterialNode)
    (l : List (String × MaterialNode)) : (n.setMaterialMap l).material_map = l := by
  cases n; rfl

theorem MaterialNode.children_map_setMaterialMap (n : MaterialNode)
    (l : List (String × MaterialNode)) : (n.setMaterialMap l).children_map = n.children_map := by
  cases n; rfl

theorem MaterialNode.material_map_setChildrenMap (n : MaterialNode)
    (l : List (String × MaterialNode)) : (n.setChildrenMap l).material_map = n.material_map := by
  cases n; rfl

theorem MaterialNode.children_map_setChildrenMap (n : MaterialNode)
    (l : List (String × MaterialNode)) : (n.setChildrenMap l).children_map = l := by
  cases n; rfl

theorem findMachineNode_get {bucket : List (String × MaterialNode)}
    {mid mkey : String} {mnode : MaterialNode}
    (h : findMachineNode bucket mid = some (mkey, mnode)) :
    dictGet mkey bucket = some mnode := by
  unfold findMachineNode at h
  cases hm : dictGet mid bucket with
  | some n =>
    simp only [hm, Option.some.injEq, Prod.mk.injEq] at h
    rw [← h.1, hm, h.2]
  | none =>
    simp only [hm] at h
    cases hd : dictGet default_machine_definition_id bucket with
    | some n =>
      simp only [hd, Option.some.injEq, Prod.mk.injEq] at h
      rw [← h.1, hd, h.2]
    | none => simp only [hd] at h; cases h

theorem findMachineNode_insert {bucket : List (String × MaterialNode)}
    {mid mkey : String} {mnode : MaterialNode} (mnode' : MaterialNode)
    (h : findMachineNode bucket mid = some (mkey, mnode)) :
    findMachineNode (dictInsert mkey mnode' bucket) mid = some (mkey, mnode') := by
  unfold findMachineNode at h ⊢
  cases hm : dictGet mid bucket with
  | some n =>
    simp only [hm, Option.some.injEq, Prod.mk.injEq] at h
    rw [← h.1, dictGet_insert_self]
  | none =>
    simp only [hm] at h
    cases hd : dictGet default_machine_definition_id bucket with
    | none => simp only [hd] at h; cases h
    | some n =>
      simp only [hd, Option.some.injEq, Prod.mk.injEq] at h
      rw [← h.1]
      have hne : mid ≠ default_machine_definition_id := fun he => by
        rw [he, hd] at hm; cases hm
      rw [dictGet_insert_ne _ _ hne, hm, dictGet_insert_self]

theorem findMachineNode_of_absent {bucket : List (String × MaterialNode)}
    {mid : String} (h : dictGet mid bucket = none) :
    findMachineNode bucket mid = findMachineNode bucket default_machine_definition_id := by
  unfold findMachineNode
  rw [h]
  cases hd : dictGet default_machine_definition_id bucket <;> simp

theorem getContainerOnNode_cached {reg : ContainerRegistry} {node node' : MaterialNode}
    {c : InstanceContainer} {k : Nat}
    (h : getContainerOnNode reg node = (.ok c, node', k)) :
    node'.container = some c ∧ getContainerOnNode reg node' = (.ok c, node', 0) := by
  unfold getContainerOnNode at h
  cases hc : node.container with
  | some c0 =>
    simp only [hc, Prod.mk.injEq, Except.ok.injEq] at h
    obtain ⟨h1, h2, h3⟩ := h
    subst h2
    subst h1
    exact ⟨hc, by simp only [getContainerOnNode, hc]⟩
  | none =>
    simp only [hc] at h
    cases hmd : node.metadata with
    | none => simp only [hmd, Prod.mk.injEq] at h; cases h.1
    | some md =>
      simp only [hmd] at h
      cases hr : reg.findInstanceContainers md.id with
      | nil => simp only [hr, Prod.mk.injEq] at h; cases h.1
      | cons c0 cs =>
        simp only [hr, Prod.mk.injEq, Except.ok.injEq] at h
        obtain ⟨h1, h2, h3⟩ := h
        subst h2
        subst h1
        refine ⟨MaterialNode.container_setContainer node (some c0), ?_⟩
        simp only [getContainerOnNode, MaterialNode.container_setContainer]

theorem abs_sub_pyRound_le_half (q : ℚ) : |q - (pyRound q : ℚ)| ≤ 1/2 := by
  unfold pyRound
  obtain ⟨f, hf⟩ : ∃ f : ℤ, q.num / (q.den : ℤ) = f := ⟨_, rfl⟩
  obtain ⟨r, hr⟩ : ∃ r : ℤ, q.num % (q.den : ℤ) = r := ⟨_, rfl⟩
  have hd0 : (0:ℤ) < (q.den : ℤ) := by exact_mod_cast q.pos
  have hdq : (0:ℚ) < ((q.den : ℤ) : ℚ) := by exact_mod_cast hd0
  have hnd : (q.num : ℚ) / ((q.den : ℤ) : ℚ) = q := by
    push_cast
    exact Rat.num_div_den q
  have hdm : (q.den : ℤ) * f + r = q.num := by
    rw [← hf, ← hr]
    exact Int.ediv_add_emod q.num (q.den : ℤ)
  have hr0 : 0 ≤ r := by rw [← hr]; exact Int.emod_nonneg q.num (ne_of_gt hd0)
  have hrd : r < (q.den : ℤ) := by rw [← hr]; exact Int.emod_lt_of_pos q.num hd0
  have hdmq : ((q.den : ℤ) : ℚ) * (f:ℚ) + (r:ℚ) = (q.num : ℚ) := by exact_mod_cast hdm
  have hrq0 : (0:ℚ) ≤ (r:ℚ) := by exact_mod_cast hr0
  have hrqd : (r:ℚ) < ((q.den : ℤ) : ℚ) := by exact_mod_cast hrd
  have hrn : (r:ℚ) = (q.num:ℚ) - ((q.den : ℤ) : ℚ) * (f:ℚ) := by linarith [hdmq]
  have hsub : q - (f:ℚ) = (r:ℚ) / ((q.den : ℤ) : ℚ) := by
    conv_lhs => rw [← hnd]
    rw [hrn, sub_div, mul_comm (((q.den : ℤ) : ℚ)) (f:ℚ), mul_div_assoc,
      div_self (ne_of_gt hdq), mul_one]
  have hsub1 : q - ((f:ℚ) + 1) = (r:ℚ) / ((q.den : ℤ) : ℚ) - 1 := by
    rw [show q - ((f:ℚ)+1) = (q - (f:ℚ)) - 1 from by ring, hsub]
  rw [hf, hr]
  split_ifs with h1 h2 h3
  · have h1q : 2 * (r:ℚ) < ((q.den : ℤ) : ℚ) := by exact_mod_cast h1
    rw [abs_le, hsub]
    constructor
    · have := div_nonneg hrq0 (le_of_lt hdq)
      linarith
    · rw [div_le_iff₀ hdq]
      linarith
  · have h2q : ((q.den : ℤ) : ℚ) < 2 * (r:ℚ) := by exact_mod_cast h2
    rw [abs_le]
    push_cast
    rw [hsub1]
    constructor
    · rw [le_sub_iff_add_le, le_div_iff₀ hdq]
      linarith
    · have : (r:ℚ) / ((q.den : ℤ) : ℚ) < 1 := (div_lt_one hdq).2 hrqd
      linarith
  · have heq : 2 * r = (q.den : ℤ) := le_antisymm (not_lt.1 h2) (not_lt.1 h1)
    have heqq : (r:ℚ) / ((q.den : ℤ) : ℚ) = 1/2 := by
      rw [div_eq_div_iff (ne_of_gt hdq) (two_ne_zero)]
      have h2' : (r * 2 : ℤ) = 1 * (q.den : ℤ) := by linarith [heq]
      exact_mod_cast h2'
    rw [hsub, heqq]
    rw [abs_of_nonneg (by norm_num : (0:ℚ) ≤ 1/2)]
  · have heq : 2 * r = (q.den : ℤ) := le_antisymm (not_lt.1 h2) (not_lt.1 h1)
    have heqq : (r:ℚ) / ((q.den : ℤ) : ℚ) = 1/2 := by
      rw [div_eq_div_iff (ne_of_gt hdq) (two_ne_zero)]
      have h2' : (r * 2 : ℤ) = 1 * (q.den : ℤ) := by linarith [heq]
      exact_mod_cast h2'
    push_cast
    rw [abs_le, hsub1, heqq]
    norm_num

theorem getMaterial_diameter_congr (reg : ContainerRegistry) (mm : MaterialManager)
    (mid : String) (vn : Option String) (rid : String) {d1 d2 : ℚ}
    (h : pyRound d1 = pyRound d2) :
    getMaterial reg mm mid vn d1 rid = getMaterial reg mm mid vn d2 rid := by
  unfold getMaterial
  rw [h]

theorem getAvailableMaterials_diameter_congr (mm : MaterialManager)
    (mid : String) (vn : Option String) {d1 d2 : ℚ}
    (h : pyRound d1 = pyRound d2) :
    getAvailableMaterials mm mid vn d1 = getAvailableMaterials mm mid vn d2 := by
  unfold getAvailableMaterials
  rw [h]

/-! ## Claim theorems -/

/-- Claim C10: the `variant_type` argument has no effect on
`getVariantMetadata` or `getVariant`: entries are keyed only by
(machine id, variant name), so any two values of the argument give equal
results. -/
theorem C10_variant_type_has_no_effect :
    ∀ (reg : ContainerRegistry) (m : VariantMap) (machine variant : String)
      (t1 t2 : Option String),
      getVariantMetadata m machine variant t1 = getVariantMetadata m machine variant t2 ∧
      getVariant reg m machine variant t1 = getVariant reg m machine variant t2 :=
  fun _ _ _ _ _ _ => ⟨rfl, rfl⟩

/-- Claim C3 counterexample: with an empty Variant Index, a lookup under a
machine id with no entry at the first level raises `KeyError` in both
`getVariantMetadata` and `getVariant` — it does not return an absent
result. -/
theorem C3_counterexample :
    getVariantMetadata [] "ultimaker3" "AA 0.4" none = .error (.keyError "ultimaker3") ∧
    getVariant regAll [] "ultimaker3" "AA 0.4" none = .error (.keyError "ultimaker3") :=
  ⟨rfl, rfl⟩

/-- Claim C3 as amended: when the machine id has an entry and the variant
name has none under it, both queries return an absent result without
raising; but when the machine id has no entry at the first level, both
raise a `KeyError` (the first-level access is a plain `[...]` lookup). -/
theorem C3_amended_absence_behaviour
    (reg : ContainerRegistry) (m : VariantMap) (machine variant : String)
    (t : Option String) :
    (dictGet machine m = none →
       getVariantMetadata m machine variant t = .error (.keyError machine) ∧
       getVariant reg m machine variant t = .error (.keyError machine)) ∧
    (∀ d, dictGet machine m = some d → dictGet variant d = none →
       getVariantMetadata m machine variant t = .ok none ∧
       getVariant reg m machine variant t = .ok (none, m, 0)) := by
  constructor
  · intro h
    constructor <;> simp [getVariantMetadata, getVariant, h]
  · intro d h1 h2
    constructor <;> simp [getVariantMetadata, getVariant, h1, h2]

theorem C3_amended_absence_behaviour_witness :
    (getVariantMetadata [] "um3" "AA 0.4" none = .error (.keyError "um3") ∧
       getVariant regAll [] "um3" "AA 0.4" none = .error (.keyError "um3")) ∧
    (getVariantMetadata [("um3", [])] "um3" "AA 0.4" none = .ok none ∧
       getVariant regAll [("um3", [])] "um3" "AA 0.4" none = .ok (none, [("um3", [])], 0)) :=
  ⟨(C3_amended_absence_behaviour regAll [] "um3" "AA 0.4" none).1 rfl,
   (C3_amended_absence_behaviour regAll [("um3", [])] "um3" "AA 0.4" none).2 [] rfl rfl⟩

/-- Claim C9: `getMaterial` and `getAvailableMaterials` key the diameter
bucket by the decimal rendering of the rounded diameter (`pyRound` differs
from the true diameter by at most 1/2, i.e. it is a nearest integer):
queries at diameter 2.84 and 2.85 behave exactly like queries at 3 (bucket
`"3"`), and queries at 1.75 like queries at 2 (bucket `"2"`). -/
theorem C9_diameter_bucket_rounding :
    (∀ (reg : ContainerRegistry) (mm : MaterialManager) (mid : String)
       (vn : Option String) (rid : String),
       getMaterial reg mm mid vn (284/100) rid = getMaterial reg mm mid vn 3 rid ∧
       getMaterial reg mm mid vn (285/100) rid = getMaterial reg mm mid vn 3 rid ∧
       getMaterial reg mm mid vn (175/100) rid = getMaterial reg mm mid vn 2 rid) ∧
    (∀ (mm : MaterialManager) (mid : String) (vn : Option String),
       getAvailableMaterials mm mid vn (284/100) = getAvailableMaterials mm mid vn 3 ∧
       getAvailableMaterials mm mid vn (285/100) = getAvailableMaterials mm mid vn 3 ∧
       getAvailableMaterials mm mid vn (175/100) = getAvailableMaterials mm mid vn 2) ∧
    toString (pyRound (284/100)) = "3" ∧
    toString (pyRound (285/100)) = "3" ∧
    toString (pyRound (175/100)) = "2" ∧
    (∀ q : ℚ, |q - (pyRound q : ℚ)| ≤ 1/2) := by
  have hm284 : (284/100 : ℚ) = mkRat 284 100 := by norm_num [Rat.mkRat_eq_div]
  have hm285 : (285/100 : ℚ) = mkRat 285 100 := by norm_num [Rat.mkRat_eq_div]
  have hm175 : (175/100 : ℚ) = mkRat 175 100 := by norm_num [Rat.mkRat_eq_div]
  have h284' : pyRound (284/100) = 3 := by rw [hm284]; decide
  have h285' : pyRound (285/100) = 3 := by rw [hm285]; decide
  have h175' : pyRound (175/100) = 2 := by rw [hm175]; decide
  have h284 : pyRound (284/100) = pyRound 3 := by rw [h284']; decide
  have h285 : pyRound (285/100) = pyRound 3 := by rw [h285']; decide
  have h175 : pyRound (175/100) = pyRound 2 := by rw [h175']; decide
  refine ⟨fun reg mm mid vn rid => ⟨?_, ?_, ?_⟩, fun mm mid vn => ⟨?_, ?_, ?_⟩,
    by rw [h284'] ; decide, by rw [h285'] ; decide, by rw [h175'] ; decide,
    abs_sub_pyRound_le_half⟩
  · exact getMaterial_diameter_congr reg mm mid vn rid h284
  · exact getMaterial_diameter_congr reg mm mid vn rid h285
  · exact getMaterial_diameter_congr reg mm mid vn rid h175
  · exact getAvailableMaterials_diameter_congr mm mid vn h284
  · exact getAvailableMaterials_diameter_congr mm mid vn h285
  · exact getAvailableMaterials_diameter_congr mm mid vn h175

/-- Claim C2 (code bug): in `mmPLA` the machine node `fdmprinter` of bucket
`"3"` holds the material `generic_pla`, yet
`getAvailableMaterials("fdmprinter", None, 3)` returns the empty mapping:
the machine-level branch is dead because it is guarded by an
`is None` test on a dict that is never `None`, so the machine node's map is
never returned. -/
theorem C2_machine_level_map_never_returned :
    getAvailableMaterials mmPLA "fdmprinter" none 3 = some [] ∧
    getAvailableMaterials mmPLA "ultimaker2_plus" none 3 = some [] ∧
    machineLeafMeta mmPLA.diameter_machine_variant_material_map
      "3" "fdmprinter" "generic_pla" = some (some rRootPLA) :=
  ⟨rfl, rfl, rfl⟩

/-- Claim C1 counterexample: the two machine-level records `rRootPLA` and
`rDupPLA` (distinct records, same diameter bucket `"3"`, same machine
`fdmprinter`, same root material id `generic_pla`) do NOT make
`initialize()` fail: the build succeeds and the later record's leaf has
silently overwritten the earlier one. -/
theorem C1_counterexample :
    rDupPLA ≠ rRootPLA ∧
    mmInit [rRootPLA, rDupPLA] = .ok
      ⟨[("G1", leafNode rRootPLA)],
       [("3", [("fdmprinter", .mk none none [("generic_pla", leafNode rDupPLA)] [])])]⟩ :=
  ⟨by decide, rfl⟩

/-- Claim C1 as amended: a duplicate (machine, variant, root-material)
leaf during pass 2 of the Resolution Index build and a duplicate
(machine, variant) entry during the Variant Index build are hard
duplicate-entry errors; but a duplicate machine-level (machine,
root-material) leaf is NOT detected — the build step succeeds and the
later record silently overwrites the earlier sibling. -/
theorem C1_amended_duplicate_handling :
    (∀ (guidMap : List (String × MaterialNode))
       (top : List (String × List (String × MaterialNode)))
       (r : MaterialMetadata) (rootNode : MaterialNode) (rootMd : MaterialMetadata)
       (vn : String) (bucket : List (String × MaterialNode))
       (machine_node vnode : MaterialNode),
       (r.id == "empty_material") = false →
       dictGet r.GUID guidMap = some rootNode →
       rootNode.metadata = some rootMd →
       r.variant_name = some vn →
       (vn == "") = false →
       dictGet r.approximate_diameter top = some bucket →
       dictGet r.definition bucket = some machine_node →
       dictGet vn machine_node.children_map = some vnode →
       (dictGet rootMd.id vnode.material_map).isSome = true →
       pass2Step guidMap top r = .error (.runtimeError
         ("Found duplicate variant name [" ++ vn ++ "] for machine [" ++
          r.definition ++ "] in material [" ++ r.id ++ "]"))) ∧
    (∀ (guidMap : List (String × MaterialNode))
       (top : List (String × List (String × MaterialNode)))
       (r : MaterialMetadata) (rootNode : MaterialNode) (rootMd : MaterialMetadata)
       (bucket : List (String × MaterialNode)) (machine_node oldLeaf : MaterialNode),
       (r.id == "empty_material") = false →
       dictGet r.GUID guidMap = some rootNode →
       rootNode.metadata = some rootMd →
       truthy r.variant_name = false →
       dictGet r.approximate_diameter top = some bucket →
       dictGet r.definition bucket = some machine_node →
       dictGet rootMd.id machine_node.material_map = some oldLeaf →
       ∃ top', pass2Step guidMap top r = .ok top' ∧
         machineLeafMeta top' r.approximate_diameter r.definition rootMd.id =
           some (some r)) ∧
    (∀ (m : VariantMap) (r : VariantMetadata) (d : List (String × VariantEntry)),
       exclude_variant_id_list.contains r.id = false →
       dictGet r.definition m = some d →
       (dictGet r.name d).isSome = true →
       vmStep m r = .error (.runtimeError
         ("Found duplicated variant name [" ++ r.name ++ "], type [" ++
          r.hardware_type ++ "] for machine [" ++ r.definition ++ "]"))) := by
  refine ⟨?_, ?_, ?_⟩
  · intro guidMap top r rootNode rootMd vn bucket machine_node vnode
      h_id h_guid h_meta h_vn h_vn' h_bucket h_machine h_variant h_dup
    simp [pass2Step, h_id, h_guid, h_meta, h_vn, h_vn', truthy, h_bucket,
      h_machine, h_variant, h_dup]
  · intro guidMap top r rootNode rootMd bucket machine_node oldLeaf
      h_id h_guid h_meta h_vn h_bucket h_machine h_old
    refine ⟨dictInsert r.approximate_diameter
        (dictInsert r.definition
          (machine_node.setMaterialMap
            (dictInsert rootMd.id (leafNode r) machine_node.material_map)) bucket) top,
      ?_, ?_⟩
    · simp [pass2Step, h_id, h_guid, h_meta, h_vn, h_bucket, h_machine]
    · cases machine_node with
      | mk md c mmap cmap =>
        simp [machineLeafMeta, dictGet_insert_self, MaterialNode.setMaterialMap,
          MaterialNode.material_map, leafNode, MaterialNode.metadata]
  · intro m r d h_id h_machine h_dup
    have h_id' : r.id ∉ exclude_variant_id_list := by simpa using h_id
    simp [vmStep, h_id', h_machine, h_dup]

theorem C1_amended_duplicate_handling_witness :
    pass2Step [("G1", leafNode rRootPLA)]
      [("3", [("ultimaker3", .mk none none []
        [("AA 0.4", .mk none none [("generic_pla", leafNode rVarPLA)] [])])])]
      rVarPLA = .error (.runtimeError
        ("Found duplicate variant name [AA 0.4] for machine [ultimaker3] in material [generic_pla_um3_aa04]")) ∧
    (∃ top', pass2Step [("G1", leafNode rRootPLA)]
        [("3", [("fdmprinter", .mk none none [("generic_pla", leafNode rRootPLA)] [])])]
        rDupPLA = .ok top' ∧
        machineLeafMeta top' "3" "fdmprinter" "generic_pla" = some (some rDupPLA)) ∧
    vmStep [("ultimaker3", [("AA 0.4", ⟨vAA04, none⟩)])] vAA04 = .error (.runtimeError
      ("Found duplicated variant name [AA 0.4], type [nozzle] for machine [ultimaker3]")) := by
  refine ⟨?_, ?_, ?_⟩
  · exact C1_amended_duplicate_handling.1 _ _ rVarPLA (leafNode rRootPLA) rRootPLA
      "AA 0.4" _ _ _ rfl rfl rfl rfl rfl rfl rfl rfl rfl
  · exact C1_amended_duplicate_handling.2.1 _ _ rDupPLA (leafNode rRootPLA) rRootPLA
      _ _ (leafNode rRootPLA) rfl rfl rfl rfl rfl rfl rfl
  · exact C1_amended_duplicate_handling.2.2 _ vAA04 _ rfl rfl rfl

/-- Claim C5: when the diameter bucket exists but holds no node for the
queried machine id, both `getMaterial` and `getAvailableMaterials` proceed
exactly as if queried with the default machine id `"fdmprinter"`, so
entries stored under the default machine resolve through any unknown
machine id. -/
theorem C5_default_machine_fallback :
    ∀ (reg : ContainerRegistry) (mm : MaterialManager) (mid : String)
      (vn : Option String) (d : ℚ) (rid : String)
      (bucket : List (String × MaterialNode)),
      dictGet (toString (pyRound d)) mm.diameter_machine_variant_material_map =
        some bucket →
      dictGet mid bucket = none →
      getMaterial reg mm mid vn d rid =
        getMaterial reg mm default_machine_definition_id vn d rid ∧
      getAvailableMaterials mm mid vn d =
        getAvailableMaterials mm default_machine_definition_id vn d := by
  intro reg mm mid vn d rid bucket h1 h2
  have hf := findMachineNode_of_absent h2
  constructor
  · simp only [getMaterial, h1, hf]
  · simp only [getAvailableMaterials, h1, hf]

theorem C5_default_machine_fallback_witness :
    getMaterial regAll mmPLA "ultimaker2_plus" none 3 "generic_pla" =
      getMaterial regAll mmPLA default_machine_definition_id none 3 "generic_pla" ∧
    getAvailableMaterials mmPLA "ultimaker2_plus" none 3 =
      getAvailableMaterials mmPLA default_machine_definition_id none 3 :=
  C5_default_machine_fallback regAll mmPLA "ultimaker2_plus" none 3 "generic_pla"
    [("fdmprinter", .mk none none [("generic_pla", leafNode rRootPLA)] [])] rfl rfl

/-- Claim C4: if the resolved machine node holds, for the same root
material id, both a leaf under the queried variant node and a leaf in its
own primary map, `getMaterial` returns the variant-specific leaf's
container (here already materialized); and when neither the variant node
nor the machine node holds such a leaf, it returns absent. -/
theorem C4_variant_leaf_beats_machine_leaf :
    (∀ (reg : ContainerRegistry) (mm : MaterialManager) (mid vnname : String)
       (d : ℚ) (rid : String) (bucket : List (String × MaterialNode))
       (mkey : String) (mnode vnode leaf mleaf : MaterialNode) (c : InstanceContainer),
       dictGet (toString (pyRound d)) mm.diameter_machine_variant_material_map =
         some bucket →
       findMachineNode bucket mid = some (mkey, mnode) →
       dictGet vnname mnode.children_map = some vnode →
       dictGet rid vnode.material_map = some leaf →
       dictGet rid mnode.material_map = some mleaf →
       leaf.container = some c →
       getMaterial reg mm mid (some vnname) d rid = .ok (some c, mm, 0)) ∧
    (∀ (reg : ContainerRegistry) (mm : MaterialManager) (mid vnname : String)
       (d : ℚ) (rid : String) (bucket : List (String × MaterialNode))
       (mkey : String) (mnode : MaterialNode),
       dictGet (toString (pyRound d)) mm.diameter_machine_variant_material_map =
         some bucket →
       findMachineNode bucket mid = some (mkey, mnode) →
       (∀ vnode, dictGet vnname mnode.children_map = some vnode →
          dictGet rid vnode.material_map = none) →
       dictGet rid mnode.material_map = none →
       getMaterial reg mm mid (some vnname) d rid = .ok (none, mm, 0)) := by
  constructor
  · intro reg mm mid vnname d rid bucket mkey mnode vnode leaf mleaf c
      h1 h2 h3 h4 h5 h6
    have hcon : getContainerOnNode reg leaf = (.ok c, leaf, 0) := by
      simp only [getContainerOnNode, h6]
    have hv' : dictInsert rid leaf vnode.material_map = vnode.material_map :=
      dictInsert_get_self h4
    have hvn : vnode.setMaterialMap (dictInsert rid leaf vnode.material_map) = vnode := by
      rw [hv', MaterialNode.setMaterialMap_self]
    have hc' : dictInsert vnname vnode mnode.children_map = mnode.children_map :=
      dictInsert_get_self h3
    have hmn : mnode.setChildrenMap (dictInsert vnname vnode mnode.children_map) = mnode := by
      rw [hc', MaterialNode.setChildrenMap_self]
    have hb : dictInsert mkey mnode bucket = bucket :=
      dictInsert_get_self (findMachineNode_get h2)
    have ht : dictInsert (toString (pyRound d)) bucket
        mm.diameter_machine_variant_material_map =
        mm.diameter_machine_variant_material_map := dictInsert_get_self h1
    simp only [getMaterial, h1, h2, h3, h4, hcon, hvn, hmn, hb, ht]
  · intro reg mm mid vnname d rid bucket mkey mnode h1 h2 h3 h4
    cases hv : dictGet vnname mnode.children_map with
    | none => simp only [getMaterial, h1, h2, hv, h4]
    | some vnode => simp only [getMaterial, h1, h2, hv, h3 vnode hv, h4]

theorem C4_variant_leaf_beats_machine_leaf_witness :
    getMaterial regAll mmBoth "ultimaker3" (some "AA 0.4") 3 "generic_pla" =
      .ok (some ⟨"variant_container"⟩, mmBoth, 0) ∧
    leafM.container = some ⟨"machine_container"⟩ ∧
    getMaterial regAll mmBoth "ultimaker3" (some "BB 0.8") 3 "generic_abs" =
      .ok (none, mmBoth, 0) := by
  refine ⟨?_, rfl, ?_⟩
  · exact C4_variant_leaf_beats_machine_leaf.1 regAll mmBoth "ultimaker3" "AA 0.4"
      3 "generic_pla" _ "ultimaker3" _ (.mk none none [("generic_pla", leafV)] [])
      leafV leafM ⟨"variant_container"⟩ rfl rfl rfl rfl rfl rfl
  · exact C4_variant_leaf_beats_machine_leaf.2 regAll mmBoth "ultimaker3" "BB 0.8"
      3 "generic_abs" _ "ultimaker3" _ rfl rfl (fun vnode h => nomatch h) rfl

theorem guid_foldl_lookup (g : String) (rs : List MaterialMetadata) :
    ∀ (m : List (String × MaterialNode)),
      dictGet g (rs.foldl guidStep m) =
        (match dictGet g m with
         | some v => some v
         | none => (rs.find? (isRootWithGuid g)).map leafNode) := by
  induction rs with
  | nil =>
    intro m
    simp only [List.foldl_nil, List.find?_nil, Option.map_none']
    cases dictGet g m <;> rfl
  | cons r rs ih =>
    intro m
    simp only [List.foldl_cons]
    rw [ih (guidStep m r)]
    by_cases h1 : r.id == "empty_material"
    · have hstep : guidStep m r = m := by simp [guidStep, h1]
      have hpred : isRootWithGuid g r = false := by simp [isRootWithGuid, h1]
      rw [hstep]
      simp only [List.find?, hpred]
    · by_cases h2 : r.base_file == some r.id
      · by_cases h3 : r.GUID == g
        · have hg : r.GUID = g := by simpa using h3
          have hpred : isRootWithGuid g r = true := by
            simp [isRootWithGuid, h1, h2, h3]
          cases h4 : dictGet g m with
          | some v =>
            have hstep : guidStep m r = m := by
              simp [guidStep, h1, h2, hg, h4]
            rw [hstep, h4]
          | none =>
            have hstep : guidStep m r = dictInsert g (leafNode r) m := by
              simp [guidStep, h1, h2, hg, h4]
            rw [hstep, dictGet_insert_self]
            simp only [List.find?, hpred, Option.map_some']
        · have hg : g ≠ r.GUID := fun he => by simp [he] at h3
          have hpred : isRootWithGuid g r = false := by
            simp [isRootWithGuid, h3]
          have hstep : dictGet g (guidStep m r) = dictGet g m := by
            simp only [guidStep, h1, h2]
            simp only [Bool.not_eq_true, if_neg, if_pos]
            cases h4 : (dictGet r.GUID m).isSome <;> simp [h4, dictGet_insert_ne _ _ hg]
          rw [hstep]
          simp only [List.find?, hpred]
      · have hstep : guidStep m r = m := by simp [guidStep, h1, h2]
        have hpred : isRootWithGuid g r = false := by simp [isRootWithGuid, h2]
        rw [hstep]
        simp only [List.find?, hpred]

/-- Claim C6: pass 1 inserts exactly the non-sentinel root records
(`id == base_file`) into the GUID index, first writer wins with no error:
the entry for GUID `g` is the first such record in input order, and
`getMaterialByGUID g` returns absent when no root record declares `g`, and
otherwise materializes exactly that first record's node. -/
theorem C6_guid_index_first_root_wins :
    ∀ (records : List MaterialMetadata)
      (top : List (String × List (String × MaterialNode)))
      (g : String) (reg : ContainerRegistry),
      dictGet g (buildGuidMap records) =
        (records.find? (isRootWithGuid g)).map leafNode ∧
      (records.find? (isRootWithGuid g) = none →
        getMaterialByGUID reg ⟨buildGuidMap records, top⟩ g =
          .ok (none, ⟨buildGuidMap records, top⟩, 0)) ∧
      (∀ r c cs, records.find? (isRootWithGuid g) = some r →
        reg.findInstanceContainers r.id = c :: cs →
        getMaterialByGUID reg ⟨buildGuidMap records, top⟩ g =
          .ok (some c, ⟨dictInsert g (MaterialNode.mk (some r) (some c) [] [])
            (buildGuidMap records), top⟩, 1)) := by
  intro records top g reg
  have hchar : dictGet g (buildGuidMap records) =
      (records.find? (isRootWithGuid g)).map leafNode := by
    rw [buildGuidMap, guid_foldl_lookup g records [], dictGet_nil]
  refine ⟨hchar, ?_, ?_⟩
  · intro hnone
    have h0 : dictGet g (buildGuidMap records) = none := by
      rw [hchar, hnone]; rfl
    simp only [getMaterialByGUID, h0]
  · intro r c cs hfind hreg
    have h0 : dictGet g (buildGuidMap records) = some (leafNode r) := by
      rw [hchar, hfind]; rfl
    simp only [getMaterialByGUID, h0, getContainerOnNode, leafNode,
      MaterialNode.container, MaterialNode.metadata, hreg, MaterialNode.setContainer]

theorem C6_guid_index_first_root_wins_witness :
    dictGet "G1" (buildGuidMap [rRootPLA, rRootPLA2]) = some (leafNode rRootPLA) ∧
    getMaterialByGUID regAll ⟨buildGuidMap [rRootPLA, rRootPLA2], []⟩ "G1" =
      .ok (some ⟨"generic_pla"⟩,
        ⟨dictInsert "G1" (MaterialNode.mk (some rRootPLA) (some ⟨"generic_pla"⟩) [] [])
          (buildGuidMap [rRootPLA, rRootPLA2]), []⟩, 1) ∧
    getMaterialByGUID regAll ⟨buildGuidMap [rRootPLA, rRootPLA2], []⟩ "G9" =
      .ok (none, ⟨buildGuidMap [rRootPLA, rRootPLA2], []⟩, 0) := by
  refine ⟨?_, ?_, ?_⟩
  · exact (C6_guid_index_first_root_wins [rRootPLA, rRootPLA2] [] "G1" regAll).1.trans
      (by rfl)
  · exact (C6_guid_index_first_root_wins [rRootPLA, rRootPLA2] [] "G1" regAll).2.2
      rRootPLA ⟨"generic_pla"⟩ [] rfl rfl
  · exact (C6_guid_index_first_root_wins [rRootPLA, rRootPLA2] [] "G9" regAll).2.1 rfl

/-- Claim C7: for a node whose container is not yet materialized (and which
carries metadata, as every indexed leaf does), the materialization step
raises exactly when the registry lookup for the node's metadata id returns
an empty sequence, and on that error the node is returned unchanged with
its cache slot still unset; the error propagates out of `getMaterial`,
`getMaterialByGUID` and `getVariant`. -/
theorem C7_registry_desync_is_fatal :
    (∀ (reg : ContainerRegistry) (node : MaterialNode) (md : MaterialMetadata),
       node.metadata = some md → node.container = none →
       (((getContainerOnNode reg node).1.isOk = false) ↔
          reg.findInstanceContainers md.id = []) ∧
       (reg.findInstanceContainers md.id = [] →
          getContainerOnNode reg node =
            (.error (.runtimeError ("Cannot lazy-load material container [" ++ md.id ++
              "], cannot be found in ContainerRegistry")), node, 1))) ∧
    (∀ (reg : ContainerRegistry) (mm : MaterialManager) (g : String)
       (node : MaterialNode) (md : MaterialMetadata),
       dictGet g mm.guid_to_root_materials_map = some node →
       node.metadata = some md → node.container = none →
       reg.findInstanceContainers md.id = [] →
       getMaterialByGUID reg mm g = .error (.runtimeError
         ("Cannot lazy-load material container [" ++ md.id ++
          "], cannot be found in ContainerRegistry"))) ∧
    (∀ (reg : ContainerRegistry) (mm : MaterialManager) (mid : String) (d : ℚ)
       (rid : String) (bucket : List (String × MaterialNode)) (mkey : String)
       (mnode node : MaterialNode) (md : MaterialMetadata),
       dictGet (toString (pyRound d)) mm.diameter_machine_variant_material_map =
         some bucket →
       findMachineNode bucket mid = some (mkey, mnode) →
       dictGet rid mnode.material_map = some node →
       node.metadata = some md → node.container = none →
       reg.findInstanceContainers md.id = [] →
       getMaterial reg mm mid none d rid = .error (.runtimeError
         ("Cannot lazy-load material container [" ++ md.id ++
          "], cannot be found in ContainerRegistry"))) ∧
    (∀ (reg : ContainerRegistry) (m : VariantMap) (machine vname : String)
       (t : Option String) (vdict : List (String × VariantEntry)) (entry : VariantEntry),
       dictGet machine m = some vdict →
       dictGet vname vdict = some entry →
       entry.container = none →
       (((getVariant reg m machine vname t).isOk = false) ↔
          reg.findInstanceContainers entry.metadata.id = []) ∧
       (reg.findInstanceContainers entry.metadata.id = [] →
          getVariant reg m machine vname t = .error (.runtimeError
            ("Cannot lazy-load variant container [" ++ entry.metadata.id ++
             "], cannot be found in ContainerRegistry")))) := by
  refine ⟨?_, ?_, ?_, ?_⟩
  · intro reg node md hmd hc
    cases hr : reg.findInstanceContainers md.id with
    | nil =>
      refine ⟨?_, fun _ => ?_⟩
      · simp [getContainerOnNode, hmd, hc, hr, Except.isOk, Except.toBool]
      · simp [getContainerOnNode, hmd, hc, hr]
    | cons c cs =>
      refine ⟨?_, fun h => ?_⟩
      · simp [getContainerOnNode, hmd, hc, hr, Except.isOk, Except.toBool]
      · simp [hr] at h
  · intro reg mm g node md hg hmd hc hr
    have hco : getContainerOnNode reg node =
        (.error (.runtimeError ("Cannot lazy-load material container [" ++ md.id ++
          "], cannot be found in ContainerRegistry")), node, 1) := by
      simp [getContainerOnNode, hmd, hc, hr]
    simp only [getMaterialByGUID, hg, hco]
  · intro reg mm mid d rid bucket mkey mnode node md h1 h2 h3 hmd hc hr
    have hco : getContainerOnNode reg node =
        (.error (.runtimeError ("Cannot lazy-load material container [" ++ md.id ++
          "], cannot be found in ContainerRegistry")), node, 1) := by
      simp [getContainerOnNode, hmd, hc, hr]
    simp only [getMaterial, h1, h2, h3, hco]
  · intro reg m machine vname t vdict entry hmach hv hc
    cases hr : reg.findInstanceContainers entry.metadata.id with
    | nil =>
      refine ⟨?_, fun _ => ?_⟩
      · simp [getVariant, hmach, hv, hc, hr, Except.isOk, Except.toBool]
      · simp [getVariant, hmach, hv, hc, hr]
    | cons c cs =>
      refine ⟨?_, fun h => ?_⟩
      · simp [getVariant, hmach, hv, hc, hr, Except.isOk, Except.toBool]
      · simp [hr] at h

theorem C7_registry_desync_is_fatal_witness :
    getContainerOnNode regNone (leafNode rRootPLA) =
      (.error (.runtimeError
        "Cannot lazy-load material container [generic_pla], cannot be found in ContainerRegistry"),
       leafNode rRootPLA, 1) ∧
    getMaterialByGUID regNone ⟨[("G1", leafNode rRootPLA)], []⟩ "G1" = .error (.runtimeError
      "Cannot lazy-load material container [generic_pla], cannot be found in ContainerRegistry") ∧
    getMaterial regNone mmPLA "fdmprinter" none 3 "generic_pla" = .error (.runtimeError
      "Cannot lazy-load material container [generic_pla], cannot be found in ContainerRegistry") ∧
    getVariant regNone [("ultimaker3", [("AA 0.4", ⟨vAA04, none⟩)])] "ultimaker3" "AA 0.4" none =
      .error (.runtimeError
        "Cannot lazy-load variant container [um3_aa04], cannot be found in ContainerRegistry") := by
  refine ⟨?_, ?_, ?_, ?_⟩
  · exact (C7_registry_desync_is_fatal.1 regNone (leafNode rRootPLA) rRootPLA rfl rfl).2 rfl
  · exact C7_registry_desync_is_fatal.2.1 regNone ⟨[("G1", leafNode rRootPLA)], []⟩ "G1"
      (leafNode rRootPLA) rRootPLA rfl rfl rfl rfl
  · exact C7_registry_desync_is_fatal.2.2.1 regNone mmPLA "fdmprinter" 3 "generic_pla"
      [("fdmprinter", .mk none none [("generic_pla", leafNode rRootPLA)] [])]
      "fdmprinter" (.mk none none [("generic_pla", leafNode rRootPLA)] [])
      (leafNode rRootPLA) rRootPLA rfl rfl rfl rfl rfl rfl
  · exact (C7_registry_desync_is_fatal.2.2.2 regNone
      [("ultimaker3", [("AA 0.4", ⟨vAA04, none⟩)])] "ultimaker3" "AA 0.4" none
      [("AA 0.4", ⟨vAA04, none⟩)] ⟨vAA04, none⟩ rfl rfl rfl).2 rfl

theorem dictInsert_idem {α : Type} (k : String) (v : α) (l : List (String × α)) :
    dictInsert k v (dictInsert k v l) = dictInsert k v l :=
  dictInsert_get_self (dictGet_insert_self k v l)

theorem MaterialNode.setMaterialMap_setMaterialMap (n : MaterialNode)
    (a b : List (String × MaterialNode)) :
    (n.setMaterialMap a).setMaterialMap b = n.setMaterialMap b := by
  cases n; rfl

theorem MaterialNode.setChildrenMap_setChildrenMap (n : MaterialNode)
    (a b : List (String × MaterialNode)) :
    (n.setChildrenMap a).setChildrenMap b = n.setChildrenMap b := by
  cases n; rfl

theorem getVariant_cached {reg : ContainerRegistry} {m : VariantMap}
    {machine vname : String} {t : Option String} {c : InstanceContainer}
    {m' : VariantMap} {n : Nat}
    (h : getVariant reg m machine vname t = .ok (some c, m', n)) :
    getVariant reg m' machine vname t = .ok (some c, m', 0) := by
  unfold getVariant at h
  cases hmach : dictGet machine m with
  | none => simp only [hmach] at h; cases h
  | some vdict =>
    simp only [hmach] at h
    cases hv : dictGet vname vdict with
    | none => simp only [hv] at h; simp at h
    | some entry =>
      simp only [hv] at h
      cases hc : entry.container with
      | some c0 =>
        simp only [hc] at h
        simp at h
        obtain ⟨h1, h2, h3⟩ := h
        subst h1
        subst h2
        simp only [getVariant, hmach, hv, hc]
      | none =>
        simp only [hc] at h
        cases hr : reg.findInstanceContainers entry.metadata.id with
        | nil => simp only [hr] at h; cases h
        | cons c0 cs =>
          simp only [hr] at h
          simp at h
          obtain ⟨h1, h2, h3⟩ := h
          subst h1
          subst h2
          have hg1 : dictGet machine (dictInsert machine
              (dictInsert vname ⟨entry.metadata, some c0⟩ vdict) m) =
              some (dictInsert vname ⟨entry.metadata, some c0⟩ vdict) :=
            dictGet_insert_self _ _ _
          have hg2 : dictGet vname (dictInsert vname ⟨entry.metadata, some c0⟩ vdict) =
              some ⟨entry.metadata, some c0⟩ := dictGet_insert_self _ _ _
          simp only [getVariant, hg1, hg2]

theorem getMaterialByGUID_cached {reg : ContainerRegistry} {mm : MaterialManager}
    {g : String} {c : InstanceContainer} {mm' : MaterialManager} {n : Nat}
    (h : getMaterialByGUID reg mm g = .ok (some c, mm', n)) :
    getMaterialByGUID reg mm' g = .ok (some c, mm', 0) := by
  unfold getMaterialByGUID at h
  cases hg : dictGet g mm.guid_to_root_materials_map with
  | none => simp only [hg] at h; simp at h
  | some node =>
    simp only [hg] at h
    rcases hco : getContainerOnNode reg node with ⟨res, node2, k⟩
    simp only [hco] at h
    cases res with
    | error e => simp at h
    | ok c0 =>
      simp at h
      obtain ⟨h1, h2, h3⟩ := h
      subst h1
      subst h2
      obtain ⟨hslot, hagain⟩ := getContainerOnNode_cached hco
      have hg2 : dictGet g (dictInsert g node2 mm.guid_to_root_materials_map) =
          some node2 := dictGet_insert_self _ _ _
      have hid : dictInsert g node2 (dictInsert g node2 mm.guid_to_root_materials_map) =
          dictInsert g node2 mm.guid_to_root_materials_map :=
        dictInsert_get_self hg2
      simp only [getMaterialByGUID, hg2, hagain, hid]

theorem getMaterial_cached {reg : ContainerRegistry} {mm : MaterialManager}
    {mid : String} {vn : Option String} {d : ℚ} {rid : String}
    {c : InstanceContainer} {mm' : MaterialManager} {n : Nat}
    (h : getMaterial reg mm mid vn d rid = .ok (some c, mm', n)) :
    getMaterial reg mm' mid vn d rid = .ok (some c, mm', 0) := by
  unfold getMaterial at h
  cases hb : dictGet (toString (pyRound d)) mm.diameter_machine_variant_material_map with
  | none => simp only [hb] at h; simp at h
  | some bucket =>
    simp only [hb] at h
    cases hf : findMachineNode bucket mid with
    | none => simp only [hf] at h; simp at h
    | some pair =>
      obtain ⟨mkey, mnode⟩ := pair
      simp only [hf] at h
      cases vn with
      | none =>
        cases hm : dictGet rid mnode.material_map with
        | none => simp only [hm] at h; simp at h
        | some mat =>
          simp only [hm] at h
          rcases hco : getContainerOnNode reg mat with ⟨res, node2, k⟩
          simp only [hco] at h
          cases res with
          | error e => simp at h
          | ok c0 =>
            simp at h
            obtain ⟨h1, h2, h3⟩ := h
            subst h1
            subst h2
            obtain ⟨hslot, hagain⟩ := getContainerOnNode_cached hco
            have hf2 := findMachineNode_insert
              (mnode.setMaterialMap (dictInsert rid node2 mnode.material_map)) hf
            simp only [getMaterial, dictGet_insert_self, hf2,
              MaterialNode.material_map_setMaterialMap, hagain,
              MaterialNode.setMaterialMap_setMaterialMap, dictInsert_idem]
      | some s =>
        cases hcm : dictGet s mnode.children_map with
        | none =>
          simp only [hcm] at h
          cases hm : dictGet rid mnode.material_map with
          | none => simp only [hm] at h; simp at h
          | some mat =>
            simp only [hm] at h
            rcases hco : getContainerOnNode reg mat with ⟨res, node2, k⟩
            simp only [hco] at h
            cases res with
            | error e => simp at h
            | ok c0 =>
              simp at h
              obtain ⟨h1, h2, h3⟩ := h
              subst h1
              subst h2
              obtain ⟨hslot, hagain⟩ := getContainerOnNode_cached hco
              have hf2 := findMachineNode_insert
                (mnode.setMaterialMap (dictInsert rid node2 mnode.material_map)) hf
              simp only [getMaterial, dictGet_insert_self, hf2,
                MaterialNode.children_map_setMaterialMap, hcm,
                MaterialNode.material_map_setMaterialMap, hagain,
                MaterialNode.setMaterialMap_setMaterialMap, dictInsert_idem]
        | some vnode =>
          simp only [hcm] at h
          cases hvm : dictGet rid vnode.material_map with
          | none =>
            simp only [hvm] at h
            cases hm : dictGet rid mnode.material_map with
            | none => simp only [hm] at h; simp at h
            | some mat =>
              simp only [hm] at h
              rcases hco : getContainerOnNode reg mat with ⟨res, node2, k⟩
              simp only [hco] at h
              cases res with
              | error e => simp at h
              | ok c0 =>
                simp at h
                obtain ⟨h1, h2, h3⟩ := h
                subst h1
                subst h2
                obtain ⟨hslot, hagain⟩ := getContainerOnNode_cached hco
                have hf2 := findMachineNode_insert
                  (mnode.setMaterialMap (dictInsert rid node2 mnode.material_map)) hf
                simp only [getMaterial, dictGet_insert_self, hf2,
                  MaterialNode.children_map_setMaterialMap, hcm, hvm,
                  MaterialNode.material_map_setMaterialMap, hagain,
                  MaterialNode.setMaterialMap_setMaterialMap, dictInsert_idem]
          | some mat =>
            simp only [hvm] at h
            rcases hco : getContainerOnNode reg mat with ⟨res, node2, k⟩
            simp only [hco] at h
            cases res with
            | error e => simp at h
            | ok c0 =>
              simp at h
              obtain ⟨h1, h2, h3⟩ := h
              subst h1
              subst h2
              obtain ⟨hslot, hagain⟩ := getContainerOnNode_cached hco
              have hf2 := findMachineNode_insert
                (mnode.setChildrenMap (dictInsert s
                  (vnode.setMaterialMap (dictInsert rid node2 vnode.material_map))
                  mnode.children_map)) hf
              simp only [getMaterial, dictGet_insert_self, hf2,
                MaterialNode.children_map_setChildrenMap,
                MaterialNode.material_map_setMaterialMap, hagain,
                MaterialNode.setMaterialMap_setMaterialMap,
                MaterialNode.setChildrenMap_setChildrenMap, dictInsert_idem]

/-- Claim C8: once a call to `getVariant`, `getMaterialByGUID` or
`getMaterial` has successfully materialized a node's container, repeating
the same resolution against the updated state returns the identical cached
handle, leaves the state unchanged, and performs zero further
`findInstanceContainers` calls (the `Nat` component counts them), so the
registry is consulted at most once per node. -/
theorem C8_materialized_container_is_cached :
    (∀ (reg : ContainerRegistry) (m : VariantMap) (machine vname : String)
       (t : Option String) (c : InstanceContainer) (m' : VariantMap) (n : Nat),
       getVariant reg m machine vname t = .ok (some c, m', n) →
       getVariant reg m' machine vname t = .ok (some c, m', 0)) ∧
    (∀ (reg : ContainerRegistry) (mm : MaterialManager) (g : String)
       (c : InstanceContainer) (mm' : MaterialManager) (n : Nat),
       getMaterialByGUID reg mm g = .ok (some c, mm', n) →
       getMaterialByGUID reg mm' g = .ok (some c, mm', 0)) ∧
    (∀ (reg : ContainerRegistry) (mm : MaterialManager) (mid : String)
       (vn : Option String) (d : ℚ) (rid : String) (c : InstanceContainer)
       (mm' : MaterialManager) (n : Nat),
       getMaterial reg mm mid vn d rid = .ok (some c, mm', n) →
       getMaterial reg mm' mid vn d rid = .ok (some c, mm', 0)) :=
  ⟨fun _ _ _ _ _ _ _ _ h => getVariant_cached h,
   fun _ _ _ _ _ _ h => getMaterialByGUID_cached h,
   fun _ _ _ _ _ _ _ _ _ h => getMaterial_cached h⟩

theorem C8_materialized_container_is_cached_witness :
    (getVariant regAll [("ultimaker3", [("AA 0.4", ⟨vAA04, none⟩)])]
        "ultimaker3" "AA 0.4" none =
      .ok (some ⟨"um3_aa04"⟩,
        [("ultimaker3", [("AA 0.4", ⟨vAA04, some ⟨"um3_aa04"⟩⟩)])], 1) ∧
     getVariant regAll [("ultimaker3", [("AA 0.4", ⟨vAA04, some ⟨"um3_aa04"⟩⟩)])]
        "ultimaker3" "AA 0.4" none =
      .ok (some ⟨"um3_aa04"⟩,
        [("ultimaker3", [("AA 0.4", ⟨vAA04, some ⟨"um3_aa04"⟩⟩)])], 0)) ∧
    (getMaterialByGUID regAll ⟨[("G1", leafNode rRootPLA)], []⟩ "G1" =
      .ok (some ⟨"generic_pla"⟩,
        ⟨[("G1", .mk (some rRootPLA) (some ⟨"generic_pla"⟩) [] [])], []⟩, 1) ∧
     getMaterialByGUID regAll ⟨[("G1", .mk (some rRootPLA) (some ⟨"generic_pla"⟩) [] [])], []⟩ "G1" =
      .ok (some ⟨"generic_pla"⟩,
        ⟨[("G1", .mk (some rRootPLA) (some ⟨"generic_pla"⟩) [] [])], []⟩, 0)) ∧
    (getMaterial regAll mmPLA "fdmprinter" none 3 "generic_pla" =
      .ok (some ⟨"generic_pla"⟩,
        ⟨[("G1", leafNode rRootPLA)],
         [("3", [("fdmprinter", .mk none none
           [("generic_pla", .mk (some rRootPLA) (some ⟨"generic_pla"⟩) [] [])] [])])]⟩, 1) ∧
     getMaterial regAll
        ⟨[("G1", leafNode rRootPLA)],
         [("3", [("fdmprinter", .mk none none
           [("generic_pla", .mk (some rRootPLA) (some ⟨"generic_pla"⟩) [] [])] [])])]⟩
        "fdmprinter" none 3 "generic_pla" =
      .ok (some ⟨"generic_pla"⟩,
        ⟨[("G1", leafNode rRootPLA)],
         [("3", [("fdmprinter", .mk none none
           [("generic_pla", .mk (some rRootPLA) (some ⟨"generic_pla"⟩) [] [])] [])])]⟩, 0)) := by
  refine ⟨⟨rfl, ?_⟩, ⟨rfl, ?_⟩, ⟨rfl, ?_⟩⟩
  · exact C8_materialized_container_is_cached.1 regAll
      [("ultimaker3", [("AA 0.4", ⟨vAA04, none⟩)])] "ultimaker3" "AA 0.4" none
      ⟨"um3_aa04"⟩ [("ultimaker3", [("AA 0.4", ⟨vAA04, some ⟨"um3_aa04"⟩⟩)])] 1 rfl
  · exact C8_materialized_container_is_cached.2.1 regAll
      ⟨[("G1", leafNode rRootPLA)], []⟩ "G1" ⟨"generic_pla"⟩
      ⟨[("G1", .mk (some rRootPLA) (some ⟨"generic_pla"⟩) [] [])], []⟩ 1 rfl
  · exact C8_materialized_container_is_cached.2.2 regAll mmPLA "fdmprinter" none 3
      "generic_pla" ⟨"generic_pla"⟩
      ⟨[("G1", leafNode rRootPLA)],
       [("3", [("fdmprinter", .mk none none
         [("generic_pla", .mk (some rRootPLA) (some ⟨"generic_pla"⟩) [] [])] [])])]⟩ 1 rfl

end Cura
